import Mathlib

/-!
# The native Phoenix adapter (`src/Native/Phoenix.js`)

A shallow embedding of the adapter between Elm and the Phoenix socket client.

* JavaScript values that the adapter only passes around (payloads, reasons,
  transport errors, Elm messages and tasks) are elements of one type `V`.
* Every call the adapter makes on a collaborator (`socket.disconnect()`,
  `channel.leave()`, `Signal.sendMessage`, `Task.perform`, the caller supplied
  handlers, the `callback` of `Task.asyncFunction`) is recorded, in program
  order, in a list of `Call`s.
* A closure registered as a callback is a function from the variables it closes
  over (for instance the flag `trying`) and its argument to the new value of
  those variables and the calls it makes.
* Elm functions are pure, so a caller supplied handler is a Lean function; that
  it was invoked, and on which argument, is recorded in the list of calls.
* The Phoenix client and its transport are not part of the adapter.  What they
  deliver is an input: a list of events, each handed to the callbacks
  registered for it, in the order of registration.  Nothing is assumed about
  which events the client delivers, or when.
-/

namespace Phoenix

/-! ## Values shared with Elm -/

/-- Tasks as the adapter builds them, with `Task.succeed` and `Task.fail`. -/
inductive Task (E A : Type) where
  | succeed (a : A)
  | fail (e : E)

/-- The value `Utils.Tuple0`. -/
abbrev Tuple0 : Type := Unit

/-- Constructor of `options.transport`. -/
inductive Transport where
  | Auto
  | WebSocket
  | LongPoll

/-- What `opts.transport` is set to. -/
inductive TransportImpl where
  | windowWebSocket
  | windowPhoenixLongPoll

/-- The record handed to `sendLogMessage` by the mailbox logger. -/
structure LogRecord (V : Type) where
  kind : String
  message : String
  data : Option V

/-- Constructor of `options.logger._0`; for `Mailbox` the field is the function
`options.logger._0._0._0`, which turns a log record into a task. -/
inductive Logger (V : Type) where
  | Console
  | Mailbox (sendLogMessage : LogRecord V → V)

/-- Socket lifecycle states handed to the socket state-change handler. -/
inductive SocketState (V : Type) where
  | Open
  | Closed (event : V)
  | Error (error : V)

/-- Channel states handed to the channel state-change handler. -/
inductive ChannelState (V : Type) where
  | Left
  | Error (reason : V)
  | Joined (msg : V)
  | Rejected (reason : V)

/-- The values a caller supplied handler can return (`response.ctor` and its
fields `_0`, `_1`). -/
inductive Response (V : Type) where
  | Ignore
  | Disconnect
  | Reply (event : String) (payload : V)
  | Leave
  | SendMessage (message : V)
  | PerformTask (task : V)

/-- Failure values of `tryJoin` and `tryPush`. -/
inductive Error (V : Type) where
  | ErrorReply (reason : V)
  | Timeout

/-- One call made by the adapter; `R` is the type of the task handed to the
`callback` of the enclosing `Task.asyncFunction`. -/
inductive Call (V R : Type) where
  | socketConnect
  | socketDisconnect
  | channelJoin
  | channelLeave
  | channelPush (event : String) (payload : V)
  | signalSendMessage (message : V)
  | taskPerform (task : V)
  | consoleLog (text : String) (data : Option V)
  | socketStatusChangeCallback (state : SocketState V)
  | channelStatusChangeCallback (state : ChannelState V)
  | hookCallback (event : String) (msg : V)
  | callback (task : R)

/-! ## `newSocket` -/

/-- JavaScript array read `xs[j]`: `undefined` (here `none`) outside the array. -/
def arrayGet {α : Type} (xs : List α) (j : Int) : Option α :=
  if 0 ≤ j then xs[j.toNat]? else none

/-- The function stored in `opts.reconnectAfterMs` (lines 36-39), closing over
`intervals`. -/
def reconnectAfterMs (intervals : List Int) (tries : Int) : Option Int :=
  let i : Int := if tries ≥ (intervals.length : Int) then (intervals.length : Int) else tries
  arrayGet intervals (i - 1)

/-- The Elm record `options` of `connect` and `tryConnect`. -/
structure SocketOptions (V : Type) where
  endPoint : String
  transport : Transport
  heartbeatIntervalMs : Option Int
  reconnectAfterMs : List Int
  logger : Option (Logger V)
  longpollerTimeout : Option Int
  params : Option V
  onStateChange : Option (SocketState V → Response V)

/-- The object `opts` handed to `new window.Phoenix.Socket`; a field that is
never assigned is `none`.  The logger closure is kept as the constructor it was
built from, its body is `loggerBody`. -/
structure Opts (V : Type) where
  transport : Option TransportImpl
  heartbeatIntervalMs : Option Int
  reconnectAfterMs : Option (Int → Option Int)
  logger : Option (Logger V)
  longpollerTimeout : Option Int
  params : Option V

/-- Body of the function stored in `opts.logger` (lines 45-50 and 54-61);
`data = none` stands for a falsy `data`. -/
def loggerBody {V R : Type} : Logger V → String → String → Option V → List (Call V R)
  | .Console, kind, message, some data => [.consoleLog (kind ++ ": " ++ message) (some data)]
  | .Console, kind, message, none => [.consoleLog (kind ++ ": " ++ message) none]
  | .Mailbox sendLogMessage, kind, message, data =>
      [.taskPerform (sendLogMessage { kind := kind, message := message, data := data })]

/-- The socket object: what it was constructed from, and the state-change
handler closed over by the three lifecycle callbacks that `newSocket`
registers on it (lines 92-100); `none` when `newSocket` registers none. -/
structure Socket (V : Type) where
  endPoint : String
  opts : Opts V
  statusChangeCallback : Option (SocketState V → Response V)

/-- Lines 17-104. -/
def newSocket {V : Type} (options : SocketOptions V) : Socket V :=
  let transport : Option TransportImpl :=
    match options.transport with
    | .Auto => none
    | .WebSocket => some .windowWebSocket
    | .LongPoll => some .windowPhoenixLongPoll
  let reconnect : Option (Int → Option Int) :=
    match options.reconnectAfterMs with
    | [] => none
    | x :: xs => some (reconnectAfterMs (x :: xs))
  { endPoint := options.endPoint
    opts :=
      { transport := transport
        heartbeatIntervalMs := options.heartbeatIntervalMs
        reconnectAfterMs := reconnect
        logger := options.logger
        longpollerTimeout := options.longpollerTimeout
        params := options.params }
    statusChangeCallback := options.onStateChange }

/-- The function `reportStateChange` of `newSocket` (lines 76-91). -/
def socketReportStateChange {V R : Type} (statusChangeCallback : SocketState V → Response V)
    (state : SocketState V) : List (Call V R) :=
  let response := statusChangeCallback state
  Call.socketStatusChangeCallback state ::
    match response with
    | .Ignore => []
    | .Disconnect => [.socketDisconnect]
    | .SendMessage m => [.signalSendMessage m]
    | .PerformTask t => [.taskPerform t]
    | _ => []

/-- A lifecycle event of the transport, named after the method that registers
the callbacks it is delivered to (`socket.onOpen`, `socket.onClose`,
`socket.onError`), with the argument the callbacks receive. -/
inductive SocketEvent (V : Type) where
  | onOpen
  | onClose (event : V)
  | onError (error : V)

/-- The callbacks `newSocket` registers (lines 92-100), as one function of the
event delivered. -/
def socketCallbacks {V R : Type} (socket : Socket V) (ev : SocketEvent V) : List (Call V R) :=
  match socket.statusChangeCallback with
  | none => []
  | some statusChangeCallback =>
    match ev with
    | .onOpen => socketReportStateChange statusChangeCallback .Open
    | .onClose event => socketReportStateChange statusChangeCallback (.Closed event)
    | .onError error => socketReportStateChange statusChangeCallback (.Error error)

/-! ## Delivery of events -/

/-- Feeds the events, in order, to a callback table `step` that threads the
closed-over variables; returns their final value and every call made. -/
def run {σ E C : Type} (step : σ → E → σ × List C) : σ → List E → σ × List C
  | s, [] => (s, [])
  | s, e :: es => ((run step (step s e).1 es).1, (step s e).2 ++ (run step (step s e).1 es).2)

/-! ## `connect`, `tryConnect`, `disconnect` -/

/-- Lines 141-147: the calls made when the task is run. -/
def connect {V : Type} (options : SocketOptions V) : List (Call V (Task V (Socket V))) :=
  let socket := newSocket options
  [.socketConnect, .callback (.succeed socket)]

/-- The callback `tryConnect` registers with `socket.onOpen` (lines 152-157). -/
def tryConnectOnOpen {V : Type} (socket : Socket V) (trying : Bool) :
    Bool × List (Call V (Task V (Socket V))) :=
  if trying then (false, [.callback (.succeed socket)]) else (trying, [])

/-- The callback `tryConnect` registers with `socket.onError` (lines 158-164). -/
def tryConnectOnError {V : Type} (_socket : Socket V) (trying : Bool) (error : V) :
    Bool × List (Call V (Task V (Socket V))) :=
  if trying then (false, [.socketDisconnect, .callback (.fail error)]) else (trying, [])

/-- The two callbacks that `tryConnect` itself registers, as one function of
the event delivered; it registers none for a close. -/
def tryConnectCallbacks {V : Type} (socket : Socket V) (trying : Bool) :
    SocketEvent V → Bool × List (Call V (Task V (Socket V)))
  | .onOpen => tryConnectOnOpen socket trying
  | .onClose _ => (trying, [])
  | .onError error => tryConnectOnError socket trying error

/-- Every callback registered on the socket of a `tryConnect`, in the order of
registration: those of `newSocket` first, then those of `tryConnect`. -/
def tryConnectDeliver {V : Type} (socket : Socket V) (trying : Bool) (ev : SocketEvent V) :
    Bool × List (Call V (Task V (Socket V))) :=
  ((tryConnectCallbacks socket trying ev).1,
    socketCallbacks socket ev ++ (tryConnectCallbacks socket trying ev).2)

/-- Lines 148-167: `tryConnect options`, followed by the delivery of `events`.
The body builds the socket, sets `trying = true`, registers its callbacks and
calls `socket.connect()`. -/
def tryConnect {V : Type} (options : SocketOptions V) (events : List (SocketEvent V)) :
    List (Call V (Task V (Socket V))) :=
  let socket := newSocket options
  let trying := true
  Call.socketConnect :: (run (tryConnectDeliver socket) trying events).2

/-- Lines 174-179. -/
def disconnect {V : Type} (_socket : Socket V) : List (Call V (Task V Tuple0)) :=
  [.socketDisconnect, .callback (.succeed ())]

/-- What can happen to a socket after `newSocket`: the transport delivers a
lifecycle event, or the program runs `disconnect` on it. -/
inductive SocketInput (V : Type) where
  | event (ev : SocketEvent V)
  | disconnect

/-- The calls made on a socket over a sequence of inputs. -/
def socketSession {V : Type} (socket : Socket V) (inputs : List (SocketInput V)) :
    List (Call V (Task V Tuple0)) :=
  inputs.flatMap fun
    | .event ev => socketCallbacks socket ev
    | .disconnect => disconnect socket

/-! ## `newChannel` -/

/-- An element of `options.on`. -/
structure Hook (V : Type) where
  event : String
  callback : V → Response V

/-- The Elm record `options` of `join` and `tryJoin`. -/
structure ChannelOptions (V : Type) where
  socket : Socket V
  topic : String
  params : Option V
  on_ : List (Hook V)
  onStateChange : Option (ChannelState V → Response V)

/-- The channel object: the arguments of `socket.channel` and the hooks bound
with `channel.on`, in the order of binding. -/
structure Channel (V : Type) where
  socket : Socket V
  topic : String
  params : Option V
  bindings : List (Hook V)

/-- The function returned by `handler(hook)` (lines 117-132). -/
def hookHandler {V R : Type} (hook : Hook V) (msg : V) : List (Call V R) :=
  let response := hook.callback msg
  Call.hookCallback hook.event msg ::
    match response with
    | .Ignore => []
    | .Leave => [.channelLeave]
    | .SendMessage m => [.signalSendMessage m]
    | .PerformTask t => [.taskPerform t]
    | _ => []

/-- Lines 108-138: the loop binds one handler for each hook, front to back. -/
def newChannel {V : Type} (options : ChannelOptions V) : Channel V :=
  { socket := options.socket
    topic := options.topic
    params := options.params
    bindings := options.on_ }

/-- An inbound message for `event`: the channel calls the handlers bound to
that event, in the order of binding. -/
def channelOn {V R : Type} (channel : Channel V) (event : String) (msg : V) : List (Call V R) :=
  (channel.bindings.filter fun hook => hook.event == event).flatMap fun hook =>
    hookHandler hook msg

/-! ## `join`, `tryJoin` -/

/-- The function `reportStateChange` of `join` (lines 188-206) and, with the
same text, of `tryJoin` (lines 231-249). -/
def channelReportStateChange {V R : Type} (statusChangeCallback : ChannelState V → Response V)
    (state : ChannelState V) : List (Call V R) :=
  let response := statusChangeCallback state
  Call.channelStatusChangeCallback state ::
    match response with
    | .Ignore => []
    | .Reply event payload => [.channelPush event payload]
    | .Leave => [.channelLeave]
    | .SendMessage m => [.signalSendMessage m]
    | .PerformTask t => [.taskPerform t]
    | _ => []

/-- The three sources that can fire on a push (`receive("ok")`,
`receive("error")`, `after(timeout)`). -/
inductive Firing (V : Type) where
  | ok (msg : V)
  | error (reason : V)
  | timeout

/-- What can be delivered to the callbacks registered on a channel and on its
join push: a firing on the join push, the events of `channel.onClose` and
`channel.onError`, and an inbound message for the hooks bound by
`channel.on`. -/
inductive ChannelEvent (V : Type) where
  | joinPush (f : Firing V)
  | onClose
  | onError (reason : V)
  | message (event : String) (msg : V)

/-- Lines 181-222: the calls made when the task of `join options` is run. -/
def join {V : Type} (options : ChannelOptions V) : List (Call V (Task V (Channel V))) :=
  let channel := newChannel options
  Call.channelJoin ::
    ((match options.onStateChange with
      | some _ => [Call.consoleLog "Activating onStateChange hooks" none]
      | none => []) ++
    [Call.callback (.succeed channel)])

/-- The callbacks registered by `join options` (lines 207-218) and by its
`newChannel`, as one function of the event delivered.  `join` registers no
`after` callback, and no callback at all without `options.onStateChange`. -/
def joinCallbacks {V : Type} (options : ChannelOptions V) (ev : ChannelEvent V) :
    List (Call V (Task V (Channel V))) :=
  match ev with
  | .message event msg => channelOn (newChannel options) event msg
  | .onClose =>
    match options.onStateChange with
    | some statusChangeCallback => channelReportStateChange statusChangeCallback .Left
    | none => []
  | .onError reason =>
    match options.onStateChange with
    | some statusChangeCallback => channelReportStateChange statusChangeCallback (.Error reason)
    | none => []
  | .joinPush (.ok msg) =>
    match options.onStateChange with
    | some statusChangeCallback => channelReportStateChange statusChangeCallback (.Joined msg)
    | none => []
  | .joinPush (.error reason) =>
    match options.onStateChange with
    | some statusChangeCallback =>
      channelReportStateChange statusChangeCallback (.Rejected reason)
    | none => []
  | .joinPush .timeout => []

/-- The calls made by the callbacks of `join options` over `events`. -/
def joinEvents {V : Type} (options : ChannelOptions V) (events : List (ChannelEvent V)) :
    List (Call V (Task V (Channel V))) :=
  events.flatMap (joinCallbacks options)

/-- The variable `reportStateChange` of `tryJoin`: `function() {}` (line 228)
unless `options.onStateChange` is set (lines 229-249). -/
def tryJoinReportStateChange {V R : Type} (options : ChannelOptions V)
    (state : ChannelState V) : List (Call V R) :=
  match options.onStateChange with
  | some statusChangeCallback => channelReportStateChange statusChangeCallback state
  | none => []

/-- The callback of `joinPush.receive("ok", ...)` in `tryJoin` (lines 257-263). -/
def tryJoinOk {V : Type} (options : ChannelOptions V) (trying : Bool) (msg : V) :
    Bool × List (Call V (Task (Error V) (Channel V × V))) :=
  let channel := newChannel options
  let guarded : Bool × List (Call V (Task (Error V) (Channel V × V))) :=
    if trying then (false, [.callback (.succeed (channel, msg))]) else (trying, [])
  (guarded.1, guarded.2 ++ tryJoinReportStateChange options (.Joined msg))

/-- The callback of `joinPush.receive("error", ...)` in `tryJoin` (lines 264-271). -/
def tryJoinError {V : Type} (options : ChannelOptions V) (trying : Bool) (reason : V) :
    Bool × List (Call V (Task (Error V) (Channel V × V))) :=
  let guarded : Bool × List (Call V (Task (Error V) (Channel V × V))) :=
    if trying then (false, [.channelLeave, .callback (.fail (.ErrorReply reason))])
    else (trying, [])
  (guarded.1, guarded.2 ++ tryJoinReportStateChange options (.Rejected reason))

/-- The callback of `joinPush.after(timeout, ...)` in `tryJoin` (lines 272-278). -/
def tryJoinTimeout {V : Type} (_options : ChannelOptions V) (trying : Bool) :
    Bool × List (Call V (Task (Error V) (Channel V × V))) :=
  if trying then (false, [.channelLeave, .callback (.fail .Timeout)]) else (trying, [])

/-- Every callback registered by `tryJoin options` and by its `newChannel`, as
one function of the event delivered; `onClose` and `onError` are registered
only with `options.onStateChange` (lines 250-255). -/
def tryJoinCallbacks {V : Type} (options : ChannelOptions V) (trying : Bool) :
    ChannelEvent V → Bool × List (Call V (Task (Error V) (Channel V × V)))
  | .joinPush (.ok msg) => tryJoinOk options trying msg
  | .joinPush (.error reason) => tryJoinError options trying reason
  | .joinPush .timeout => tryJoinTimeout options trying
  | .onClose =>
    match options.onStateChange with
    | some _ => (trying, tryJoinReportStateChange options .Left)
    | none => (trying, [])
  | .onError reason =>
    match options.onStateChange with
    | some _ => (trying, tryJoinReportStateChange options (.Error reason))
    | none => (trying, [])
  | .message event msg => (trying, channelOn (newChannel options) event msg)

/-- Lines 223-280: `tryJoin timeout options`, followed by the delivery of
`events`.  The body builds the channel, calls `channel.join()`, sets
`trying = true` and registers its callbacks; `timeout` only arms the timer. -/
def tryJoin {V : Type} (_timeout : Int) (options : ChannelOptions V)
    (events : List (ChannelEvent V)) : Bool × List (Call V (Task (Error V) (Channel V × V))) :=
  let trying := true
  ((run (tryJoinCallbacks options) trying events).1,
    Call.channelJoin :: (run (tryJoinCallbacks options) trying events).2)

/-! ## `push`, `tryPush` -/

/-- Lines 281-286. -/
def push {V : Type} (event : String) (payload : V) (_channel : Channel V) :
    List (Call V (Task V Tuple0)) :=
  [.channelPush event payload, .callback (.succeed ())]

/-- The three callbacks registered by `tryPush` (lines 290-292): each builds a
task with `Task.succeed` or `Task.fail` and drops it; none calls `callback`. -/
def tryPushCallbacks {V : Type} (_u : Unit) :
    Firing V → Unit × List (Call V (Task (Error V) V))
  | .ok msg =>
    let _dropped : Task (Error V) V := Task.succeed msg
    ((), [])
  | .error reason =>
    let _dropped : Task (Error V) V := Task.fail (.ErrorReply reason)
    ((), [])
  | .timeout =>
    let _dropped : Task (Error V) V := Task.fail .Timeout
    ((), [])

/-- Lines 287-294: `tryPush event payload timeout channel`, followed by the
firings on the push. -/
def tryPush {V : Type} (event : String) (payload : V) (_timeout : Int) (_channel : Channel V)
    (firings : List (Firing V)) : List (Call V (Task (Error V) V)) :=
  Call.channelPush event payload :: (run tryPushCallbacks () firings).2

/-! ## Reading a list of calls -/

/-- The task of a call of `callback`. -/
def Call.task? {V R : Type} : Call V R → Option R
  | .callback task => some task
  | _ => none

/-- The tasks handed to `callback`, in order. -/
def callbackTasks {V R : Type} (calls : List (Call V R)) : List R :=
  calls.filterMap Call.task?

/-- Argument of an invocation of the socket state-change handler. -/
def Call.socketState? {V R : Type} : Call V R → Option (SocketState V)
  | .socketStatusChangeCallback state => some state
  | _ => none

/-- Argument of an invocation of the channel state-change handler. -/
def Call.channelState? {V R : Type} : Call V R → Option (ChannelState V)
  | .channelStatusChangeCallback state => some state
  | _ => none

/-- Arguments of an invocation of a hook callback. -/
def Call.hook? {V R : Type} : Call V R → Option (String × V)
  | .hookCallback event msg => some (event, msg)
  | _ => none

/-- Number of calls of `channel.leave()`. -/
def leaveCount {V R : Type} (calls : List (Call V R)) : Nat :=
  calls.countP fun
    | .channelLeave => true
    | _ => false

/-- Whether some call in the list invokes a caller supplied handler. -/
def dispatches {V R : Type} (calls : List (Call V R)) : Bool :=
  calls.any fun
    | .socketStatusChangeCallback _ => true
    | .channelStatusChangeCallback _ => true
    | .hookCallback _ _ => true
    | _ => false

/-- Whether a caller supplied handler is invoked after a call of
`socket.disconnect()`. -/
def dispatchesAfterDisconnect {V R : Type} : List (Call V R) → Bool
  | [] => false
  | .socketDisconnect :: rest => dispatches rest
  | _ :: rest => dispatchesAfterDisconnect rest

/-- Whether a caller supplied handler is invoked after a call of
`channel.leave()`. -/
def dispatchesAfterLeave {V R : Type} : List (Call V R) → Bool
  | [] => false
  | .channelLeave :: rest => dispatches rest
  | _ :: rest => dispatchesAfterLeave rest

/-- The state that the state-change callbacks registered on a socket report
for a lifecycle event (lines 92-100). -/
def SocketEvent.state {V : Type} : SocketEvent V → SocketState V
  | .onOpen => .Open
  | .onClose e => .Closed e
  | .onError e => .Error e

/-- The lifecycle event of an input, if it is one. -/
def SocketInput.event? {V : Type} : SocketInput V → Option (SocketEvent V)
  | .event ev => some ev
  | .disconnect => none

/-- The state that the callbacks of lines 207-218 and 250-270 report for a
channel event; a timeout and an inbound message report none. -/
def ChannelEvent.state? {V : Type} : ChannelEvent V → Option (ChannelState V)
  | .onClose => some .Left
  | .onError reason => some (.Error reason)
  | .joinPush (.ok msg) => some (.Joined msg)
  | .joinPush (.error reason) => some (.Rejected reason)
  | .joinPush .timeout => none
  | .message _ _ => none

/-- The firing of a channel event that is one on the join push; the events of
`channel.onClose` and `channel.onError` and inbound messages are none. -/
def ChannelEvent.firing? {V : Type} : ChannelEvent V → Option (Firing V)
  | .joinPush f => some f
  | _ => none

/-- The calls that the hook handlers bound by `newChannel options` make over
`events`: those of `channelOn` for each inbound message. -/
def hookEvents {V R : Type} (options : ChannelOptions V) (events : List (ChannelEvent V)) :
    List (Call V R) :=
  events.flatMap fun
    | .message event msg => channelOn (newChannel options) event msg
    | _ => []

/-- Number of calls of `socket.disconnect()`. -/
def disconnectCount {V R : Type} (calls : List (Call V R)) : Nat :=
  calls.countP fun
    | .socketDisconnect => true
    | _ => false

/-! ## Theorems -/

section Lemmas

variable {V R : Type}

theorem run_append {σ E C : Type} (step : σ → E → σ × List C) (s : σ) (a b : List E) :
    run step s (a ++ b) =
      ((run step (run step s a).1 b).1, (run step s a).2 ++ (run step (run step s a).1 b).2) := by
  induction a generalizing s with
  | nil => simp [run]
  | cons e es ih => simp [run, ih, List.append_assoc]

theorem callbackTasks_append (a b : List (Call V R)) :
    callbackTasks (a ++ b) = callbackTasks a ++ callbackTasks b := by
  simp [callbackTasks]

theorem callbackTasks_callback_cons (task : R) (cs : List (Call V R)) :
    callbackTasks (Call.callback task :: cs) = task :: callbackTasks cs := rfl

theorem callbackTasks_channelJoin_cons (cs : List (Call V R)) :
    callbackTasks (Call.channelJoin :: cs) = callbackTasks cs := rfl

theorem callbackTasks_channelLeave_cons (cs : List (Call V R)) :
    callbackTasks (Call.channelLeave :: cs) = callbackTasks cs := rfl

theorem callbackTasks_socketConnect_cons (cs : List (Call V R)) :
    callbackTasks (Call.socketConnect :: cs) = callbackTasks cs := rfl

theorem callbackTasks_socketDisconnect_cons (cs : List (Call V R)) :
    callbackTasks (Call.socketDisconnect :: cs) = callbackTasks cs := rfl

theorem leaveCount_append (a b : List (Call V R)) :
    leaveCount (a ++ b) = leaveCount a + leaveCount b := by
  simp [leaveCount]

theorem callbackTasks_channelReportStateChange (h : ChannelState V → Response V)
    (st : ChannelState V) :
    callbackTasks (channelReportStateChange (R := R) h st) = [] := by
  unfold channelReportStateChange
  cases hr : h st <;> simp [callbackTasks, Call.task?]

theorem callbackTasks_tryJoinReportStateChange (options : ChannelOptions V)
    (st : ChannelState V) :
    callbackTasks (tryJoinReportStateChange (R := R) options st) = [] := by
  unfold tryJoinReportStateChange
  cases options.onStateChange with
  | none => rfl
  | some h => exact callbackTasks_channelReportStateChange h st

theorem callbackTasks_hookHandler (hook : Hook V) (msg : V) :
    callbackTasks (hookHandler (R := R) hook msg) = [] := by
  unfold hookHandler
  cases hr : hook.callback msg <;> simp [callbackTasks, Call.task?]

theorem callbackTasks_channelOn (channel : Channel V) (event : String) (msg : V) :
    callbackTasks (channelOn (R := R) channel event msg) = [] := by
  unfold channelOn
  induction channel.bindings.filter (fun hook => hook.event == event) with
  | nil => rfl
  | cons hook hooks ih =>
    rw [List.flatMap_cons, callbackTasks_append, callbackTasks_hookHandler, ih]
    rfl

/-- Once `trying` is false no callback of `tryJoin` calls `callback`, and
`trying` stays false. -/
theorem tryJoinCallbacks_false (options : ChannelOptions V) (ev : ChannelEvent V) :
    (tryJoinCallbacks options false ev).1 = false ∧
      callbackTasks (tryJoinCallbacks options false ev).2 = [] := by
  cases ev with
  | joinPush f =>
    cases f <;>
      simp [tryJoinCallbacks, tryJoinOk, tryJoinError, tryJoinTimeout,
        callbackTasks_tryJoinReportStateChange]
    rfl
  | onClose =>
    simp only [tryJoinCallbacks]
    cases options.onStateChange <;>
      simp [callbackTasks_tryJoinReportStateChange]
    rfl
  | onError reason =>
    simp only [tryJoinCallbacks]
    cases options.onStateChange <;>
      simp [callbackTasks_tryJoinReportStateChange]
    rfl
  | message event msg =>
    simp [tryJoinCallbacks, callbackTasks_channelOn]

theorem run_tryJoinCallbacks_false (options : ChannelOptions V) (evs : List (ChannelEvent V)) :
    (run (tryJoinCallbacks options) false evs).1 = false ∧
      callbackTasks (run (tryJoinCallbacks options) false evs).2 = [] := by
  induction evs with
  | nil => exact ⟨rfl, rfl⟩
  | cons ev evs ih =>
    have h := tryJoinCallbacks_false options ev
    simp only [run, h.1, callbackTasks_append, h.2, ih.1, ih.2, List.append_nil, and_self]

theorem callbackTasks_socketReportStateChange (h : SocketState V → Response V)
    (st : SocketState V) :
    callbackTasks (socketReportStateChange (R := R) h st) = [] := by
  unfold socketReportStateChange
  cases hr : h st <;> simp [callbackTasks, Call.task?]

theorem callbackTasks_socketCallbacks (socket : Socket V) (ev : SocketEvent V) :
    callbackTasks (socketCallbacks (R := R) socket ev) = [] := by
  unfold socketCallbacks
  cases socket.statusChangeCallback with
  | none => rfl
  | some h => cases ev <;> exact callbackTasks_socketReportStateChange h _

/-- The calls of `reportStateChange` in `newSocket`: the handler, then the
calls of its response. -/
theorem socketReportStateChange_calls (h : SocketState V → Response V) (st : SocketState V) :
    (socketReportStateChange (R := R) h st).filterMap Call.socketState? = [st] ∧
    socketReportStateChange (R := R) h st =
      Call.socketStatusChangeCallback st ::
        (match h st with
          | .Disconnect => [Call.socketDisconnect]
          | .SendMessage m => [Call.signalSendMessage m]
          | .PerformTask t => [Call.taskPerform t]
          | .Ignore => []
          | .Reply _ _ => []
          | .Leave => []) := by
  simp only [socketReportStateChange]
  generalize h st = r
  cases r <;> exact ⟨rfl, rfl⟩

theorem socketCallbacks_states (options : SocketOptions V) (h : SocketState V → Response V)
    (ev : SocketEvent V) :
    (socketCallbacks (R := R) (newSocket { options with onStateChange := some h }) ev).filterMap
        Call.socketState? = [ev.state] := by
  cases ev with
  | onOpen => exact (socketReportStateChange_calls h .Open).1
  | onClose event => exact (socketReportStateChange_calls h (.Closed event)).1
  | onError error => exact (socketReportStateChange_calls h (.Error error)).1

theorem channelReportStateChange_states (h : ChannelState V → Response V)
    (st : ChannelState V) :
    (channelReportStateChange (R := R) h st).filterMap Call.channelState? = [st] := by
  simp only [channelReportStateChange]
  generalize h st = r
  cases r <;> rfl

theorem hookHandler_states (hook : Hook V) (msg : V) :
    (hookHandler (R := R) hook msg).filterMap Call.channelState? = [] := by
  simp only [hookHandler]
  generalize hook.callback msg = r
  cases r <;> rfl

theorem hookHandler_hooks (hook : Hook V) (msg : V) :
    (hookHandler (R := R) hook msg).filterMap Call.hook? = [(hook.event, msg)] := by
  simp only [hookHandler]
  generalize hook.callback msg = r
  cases r <;> rfl

theorem channelOn_states (channel : Channel V) (event : String) (msg : V) :
    (channelOn (R := R) channel event msg).filterMap Call.channelState? = [] := by
  unfold channelOn
  induction channel.bindings.filter (fun hook => hook.event == event) with
  | nil => rfl
  | cons hook hooks ih =>
    rw [List.flatMap_cons, List.filterMap_append, hookHandler_states, ih]
    rfl

theorem channelOn_hooks (channel : Channel V) (event : String) (msg : V) :
    (channelOn (R := R) channel event msg).filterMap Call.hook? =
      (channel.bindings.filter fun hook => hook.event == event).map fun hook =>
        (hook.event, msg) := by
  unfold channelOn
  induction channel.bindings.filter (fun hook => hook.event == event) with
  | nil => rfl
  | cons hook hooks ih =>
    rw [List.flatMap_cons, List.filterMap_append, hookHandler_hooks, ih]
    rfl

/-- With a handler, each callback of `join` invokes it on the state of the
event, if the event has one. -/
theorem joinCallbacks_states (options : ChannelOptions V) (h : ChannelState V → Response V)
    (ev : ChannelEvent V) :
    (joinCallbacks { options with onStateChange := some h } ev).filterMap Call.channelState? =
      ev.state?.toList := by
  cases ev with
  | joinPush f =>
    cases f with
    | ok msg => exact channelReportStateChange_states h _
    | error reason => exact channelReportStateChange_states h _
    | timeout => rfl
  | onClose => exact channelReportStateChange_states h _
  | onError reason => exact channelReportStateChange_states h _
  | message event msg => exact channelOn_states _ event msg

/-- With a handler, each callback of `tryJoin` invokes it on the state of the
event, if the event has one, whatever the value of `trying`. -/
theorem tryJoinCallbacks_states (options : ChannelOptions V) (h : ChannelState V → Response V)
    (trying : Bool) (ev : ChannelEvent V) :
    (tryJoinCallbacks { options with onStateChange := some h } trying ev).2.filterMap
        Call.channelState? = ev.state?.toList := by
  cases ev with
  | joinPush f =>
    cases f with
    | ok msg =>
      simp only [tryJoinCallbacks, tryJoinOk, tryJoinReportStateChange, List.filterMap_append,
        channelReportStateChange_states]
      cases trying <;> rfl
    | error reason =>
      simp only [tryJoinCallbacks, tryJoinError, tryJoinReportStateChange,
        List.filterMap_append, channelReportStateChange_states]
      cases trying <;> rfl
    | timeout => cases trying <;> rfl
  | onClose => exact channelReportStateChange_states h _
  | onError reason => exact channelReportStateChange_states h _
  | message event msg => exact channelOn_states _ event msg

theorem run_tryJoinCallbacks_states (options : ChannelOptions V)
    (h : ChannelState V → Response V) (trying : Bool) (evs : List (ChannelEvent V)) :
    (run (tryJoinCallbacks { options with onStateChange := some h }) trying evs).2.filterMap
        Call.channelState? = evs.filterMap ChannelEvent.state? := by
  induction evs generalizing trying with
  | nil => rfl
  | cons ev evs ih =>
    simp only [run, List.filterMap_append, tryJoinCallbacks_states, ih, List.filterMap_cons]
    cases ev.state? <;> rfl

theorem joinEvents_states (options : ChannelOptions V) (h : ChannelState V → Response V)
    (evs : List (ChannelEvent V)) :
    (joinEvents { options with onStateChange := some h } evs).filterMap Call.channelState? =
      evs.filterMap ChannelEvent.state? := by
  induction evs with
  | nil => rfl
  | cons ev evs ih =>
    simp only [joinEvents] at ih
    simp only [joinEvents, List.flatMap_cons, List.filterMap_append, joinCallbacks_states, ih,
      List.filterMap_cons]
    cases ev.state? <;> rfl

/-- An event that is no firing on the join push leaves `trying` as it is and
does not call `callback`. -/
theorem tryJoinCallbacks_not_firing (options : ChannelOptions V) (trying : Bool)
    (ev : ChannelEvent V) (hev : ev.firing? = none) :
    (tryJoinCallbacks options trying ev).1 = trying ∧
      callbackTasks (tryJoinCallbacks options trying ev).2 = [] := by
  cases ev with
  | joinPush f => simp [ChannelEvent.firing?] at hev
  | onClose =>
    simp only [tryJoinCallbacks]
    cases options.onStateChange with
    | none => exact ⟨rfl, rfl⟩
    | some h => exact ⟨rfl, callbackTasks_tryJoinReportStateChange _ _⟩
  | onError reason =>
    simp only [tryJoinCallbacks]
    cases options.onStateChange with
    | none => exact ⟨rfl, rfl⟩
    | some h => exact ⟨rfl, callbackTasks_tryJoinReportStateChange _ _⟩
  | message event msg => exact ⟨rfl, callbackTasks_channelOn _ event msg⟩

/-- Events before the first firing leave `trying` as it is and do not call
`callback`. -/
theorem run_tryJoinCallbacks_not_firing (options : ChannelOptions V) (trying : Bool)
    (evs : List (ChannelEvent V)) (hevs : evs.filterMap ChannelEvent.firing? = []) :
    (run (tryJoinCallbacks options) trying evs).1 = trying ∧
      callbackTasks (run (tryJoinCallbacks options) trying evs).2 = [] := by
  induction evs with
  | nil => exact ⟨rfl, rfl⟩
  | cons ev evs ih =>
    have hev : ev.firing? = none := by
      cases h : ev.firing? with
      | none => rfl
      | some f => simp [List.filterMap_cons, h] at hevs
    have htl : evs.filterMap ChannelEvent.firing? = [] := by
      simpa [List.filterMap_cons, hev] using hevs
    have hstep := tryJoinCallbacks_not_firing options trying ev hev
    have ih := ih htl
    simp only [run, hstep.1, callbackTasks_append, hstep.2, ih.1, ih.2, List.append_nil,
      and_self]

/-- The first firing, with `trying` still true: the calls it makes, and
`trying` cleared. -/
theorem tryJoinCallbacks_true_firing (options : ChannelOptions V) (f : Firing V) :
    (tryJoinCallbacks options true (.joinPush f)).1 = false ∧
      callbackTasks (tryJoinCallbacks options true (.joinPush f)).2 =
        [match f with
          | .ok msg => Task.succeed (newChannel options, msg)
          | .error reason => Task.fail (.ErrorReply reason)
          | .timeout => Task.fail .Timeout] := by
  cases f with
  | ok msg =>
    refine ⟨rfl, ?_⟩
    have e : (tryJoinCallbacks options true (.joinPush (.ok msg))).2 =
        .callback (.succeed (newChannel options, msg)) ::
          tryJoinReportStateChange options (.Joined msg) := rfl
    rw [e, callbackTasks_callback_cons, callbackTasks_tryJoinReportStateChange]
  | error reason =>
    refine ⟨rfl, ?_⟩
    have e : (tryJoinCallbacks options true (.joinPush (.error reason))).2 =
        .channelLeave :: .callback (.fail (.ErrorReply reason)) ::
          tryJoinReportStateChange options (.Rejected reason) := rfl
    rw [e, callbackTasks_channelLeave_cons, callbackTasks_callback_cons,
      callbackTasks_tryJoinReportStateChange]
  | timeout => exact ⟨rfl, rfl⟩

theorem disconnectCount_append (a b : List (Call V R)) :
    disconnectCount (a ++ b) = disconnectCount a + disconnectCount b := by
  simp [disconnectCount]

/-- Once `trying` is false, the calls on the socket of a `tryConnect` are those
of the callbacks of `newSocket`. -/
theorem run_tryConnectDeliver_false_calls (socket : Socket V) (evs : List (SocketEvent V)) :
    run (tryConnectDeliver socket) false evs = (false, evs.flatMap (socketCallbacks socket)) := by
  induction evs with
  | nil => rfl
  | cons ev evs ih =>
    have h : tryConnectCallbacks socket false ev = (false, []) := by
      cases ev <;> rfl
    simp only [run, tryConnectDeliver, h, List.append_nil, ih, List.flatMap_cons]

/-- For close events `tryConnect` registers no callback: `trying` stays, and the
calls are those of the callbacks of `newSocket`. -/
theorem run_tryConnectDeliver_closes (socket : Socket V) (trying : Bool) (closes : List V) :
    run (tryConnectDeliver socket) trying (closes.map .onClose) =
      (trying, (closes.map .onClose).flatMap (socketCallbacks socket)) := by
  induction closes with
  | nil => rfl
  | cons c cs ih =>
    have h : tryConnectCallbacks socket trying (.onClose c) = (trying, []) := rfl
    simp only [List.map_cons, run, tryConnectDeliver, h, List.append_nil, ih,
      List.flatMap_cons]

theorem flatMap_socketCallbacks_no_handler (socket : Socket V)
    (hnone : socket.statusChangeCallback = none) (evs : List (SocketEvent V)) :
    evs.flatMap (socketCallbacks (R := R) socket) = [] := by
  induction evs with
  | nil => rfl
  | cons ev evs ih =>
    have h : socketCallbacks (R := R) socket ev = [] := by
      simp [socketCallbacks, hnone]
    simp only [List.flatMap_cons, h, ih, List.append_nil]

theorem callbackTasks_flatMap_socketCallbacks (socket : Socket V) (evs : List (SocketEvent V)) :
    callbackTasks (evs.flatMap (socketCallbacks (R := R) socket)) = [] := by
  induction evs with
  | nil => rfl
  | cons ev evs ih =>
    rw [List.flatMap_cons, callbackTasks_append, callbackTasks_socketCallbacks, ih]
    rfl

/-- Without a state-change handler, an event that is no firing on the join push
makes the calls of the hook handlers and no other. -/
theorem tryJoinCallbacks_not_firing_calls (options : ChannelOptions V)
    (hnone : options.onStateChange = none) (trying : Bool) (ev : ChannelEvent V)
    (hev : ev.firing? = none) :
    (tryJoinCallbacks options trying ev).2 = hookEvents options [ev] := by
  cases ev with
  | joinPush f => simp [ChannelEvent.firing?] at hev
  | onClose => simp [tryJoinCallbacks, hnone, hookEvents]
  | onError reason => simp [tryJoinCallbacks, hnone, hookEvents]
  | message event msg => simp [tryJoinCallbacks, hookEvents]

theorem hookEvents_cons (options : ChannelOptions V) (ev : ChannelEvent V)
    (evs : List (ChannelEvent V)) :
    hookEvents (R := R) options (ev :: evs) =
      hookEvents options [ev] ++ hookEvents options evs := by
  simp [hookEvents]

theorem hookEvents_append (options : ChannelOptions V) (a b : List (ChannelEvent V)) :
    hookEvents (R := R) options (a ++ b) = hookEvents options a ++ hookEvents options b := by
  simp [hookEvents]

/-- Without a state-change handler, the events before the first firing make the
calls of the hook handlers and no other. -/
theorem run_tryJoinCallbacks_not_firing_calls (options : ChannelOptions V)
    (hnone : options.onStateChange = none) (trying : Bool) (evs : List (ChannelEvent V))
    (hevs : evs.filterMap ChannelEvent.firing? = []) :
    (run (tryJoinCallbacks options) trying evs).2 = hookEvents options evs := by
  induction evs with
  | nil => rfl
  | cons ev evs ih =>
    have hev : ev.firing? = none := by
      cases h : ev.firing? with
      | none => rfl
      | some f => simp [List.filterMap_cons, h] at hevs
    have htl : evs.filterMap ChannelEvent.firing? = [] := by
      simpa [List.filterMap_cons, hev] using hevs
    have hst := (tryJoinCallbacks_not_firing options trying ev hev).1
    rw [hookEvents_cons]
    simp only [run, hst, tryJoinCallbacks_not_firing_calls options hnone trying ev hev, ih htl]

/-- Without a state-change handler, once `trying` is false every event makes
the calls of the hook handlers and no other. -/
theorem run_tryJoinCallbacks_false_calls (options : ChannelOptions V)
    (hnone : options.onStateChange = none) (evs : List (ChannelEvent V)) :
    (run (tryJoinCallbacks options) false evs).2 = hookEvents options evs := by
  induction evs with
  | nil => rfl
  | cons ev evs ih =>
    have hst := (tryJoinCallbacks_false options ev).1
    have hcalls : (tryJoinCallbacks options false ev).2 = hookEvents options [ev] := by
      cases ev with
      | joinPush f =>
        cases f <;>
          simp [tryJoinCallbacks, tryJoinOk, tryJoinError, tryJoinTimeout,
            tryJoinReportStateChange, hnone, hookEvents]
      | onClose => exact tryJoinCallbacks_not_firing_calls options hnone false _ rfl
      | onError reason => exact tryJoinCallbacks_not_firing_calls options hnone false _ rfl
      | message event msg => exact tryJoinCallbacks_not_firing_calls options hnone false _ rfl
    rw [hookEvents_cons]
    simp only [run, hst, hcalls, ih]

end Lemmas

/-- C1: for a non-empty configured delay sequence of length N and an attempt
number k with 1 ≤ k, the function that `newSocket` stores in
`opts.reconnectAfterMs` returns the element at 0-based position
`min k N - 1`, which is inside the sequence. -/
theorem C1_reconnectAfterMs_clamped {V : Type} (options : SocketOptions V) (k : Nat)
    (hne : options.reconnectAfterMs ≠ []) (hk : 1 ≤ k) :
    ∃ f, (newSocket options).opts.reconnectAfterMs = some f ∧
      f (k : Int) = options.reconnectAfterMs[min k options.reconnectAfterMs.length - 1]? ∧
      min k options.reconnectAfterMs.length - 1 < options.reconnectAfterMs.length := by
  obtain ⟨endPoint, transport, hb, intervals, logger, lp, params, onSC⟩ := options
  cases intervals with
  | nil => exact absurd rfl hne
  | cons x xs =>
    refine ⟨reconnectAfterMs (x :: xs), rfl, ?_, ?_⟩
    · simp only [reconnectAfterMs, arrayGet]
      by_cases h : (k : Int) ≥ ((x :: xs).length : Int)
      · have h' : (x :: xs).length ≤ k := by exact_mod_cast h
        rw [if_pos h, Nat.min_eq_right h']
        have : (0 : Int) ≤ ((x :: xs).length : Int) - 1 := by simp
        rw [if_pos this]
        congr 1
        simp only [List.length_cons]
        omega
      · have h' : k < (x :: xs).length := by
          have := not_le.mp h
          exact_mod_cast this
        rw [if_neg h, Nat.min_eq_left h'.le]
        have : (0 : Int) ≤ (k : Int) - 1 := by omega
        rw [if_pos this]
        congr 1
        omega
    · simp only [List.length_cons]
      omega

/-- Witness of C1 on the sequence 1000, 2000, 5000: attempt 4 reuses the last
delay, and the function gives 1000 at attempt 1 and 5000 at attempt 4. -/
theorem C1_reconnectAfterMs_clamped_witness :
    (∃ f, (newSocket (V := Nat)
        { endPoint := "ws", transport := .Auto, heartbeatIntervalMs := none,
          reconnectAfterMs := [1000, 2000, 5000], logger := none,
          longpollerTimeout := none, params := none,
          onStateChange := none }).opts.reconnectAfterMs = some f ∧
      f ((4 : Nat) : Int) = [1000, 2000, 5000][min 4 [(1000 : Int), 2000, 5000].length - 1]? ∧
      min 4 [(1000 : Int), 2000, 5000].length - 1 < [(1000 : Int), 2000, 5000].length) ∧
    reconnectAfterMs [1000, 2000, 5000] 1 = some 1000 ∧
    reconnectAfterMs [1000, 2000, 5000] 4 = some 5000 :=
  ⟨C1_reconnectAfterMs_clamped (V := Nat)
    { endPoint := "ws", transport := .Auto, heartbeatIntervalMs := none,
      reconnectAfterMs := [1000, 2000, 5000], logger := none,
      longpollerTimeout := none, params := none, onStateChange := none }
    4 (by simp) (by decide), by decide, by decide⟩

section TryJoin

variable {V : Type}

/-- Without a state-change handler, once `trying` is false the firings on the
join push make no call at all. -/
theorem run_tryJoinCallbacks_false_quiet (options : ChannelOptions V)
    (hnone : options.onStateChange = none) (fs : List (Firing V)) :
    (run (tryJoinCallbacks options) false (fs.map .joinPush)).2 = [] := by
  induction fs with
  | nil => rfl
  | cons f fs ih =>
    have h1 : (tryJoinCallbacks options false (.joinPush f)).1 = false :=
      (tryJoinCallbacks_false options (.joinPush f)).1
    have h2 : (tryJoinCallbacks options false (.joinPush f)).2 = [] := by
      cases f <;>
        simp [tryJoinCallbacks, tryJoinOk, tryJoinError, tryJoinTimeout,
          tryJoinReportStateChange, hnone]
    simp only [List.map_cons, run, h1, h2, ih, List.append_nil]

/-- C2: in `tryJoin`, over every sequence of events that contains a firing of
the ok reply, the error reply or the timeout, whatever channel events and
inbound messages come before the first firing and whatever events follow it,
`callback` is called exactly once, with the task decided by the first firing:
success with the channel and the payload for ok, failure `ErrorReply reason`
for error, failure `Timeout` for the timeout; in the state reached, no further
event calls `callback`. -/
theorem C2_tryJoin_first_firing_wins (timeout : Int) (options : ChannelOptions V)
    (before : List (ChannelEvent V)) (f : Firing V) (rest : List (ChannelEvent V))
    (hbefore : before.filterMap ChannelEvent.firing? = []) :
    callbackTasks (tryJoin timeout options (before ++ .joinPush f :: rest)).2 =
      [match f with
        | .ok msg => Task.succeed (newChannel options, msg)
        | .error reason => Task.fail (.ErrorReply reason)
        | .timeout => Task.fail .Timeout] ∧
    ∀ ev : ChannelEvent V,
      callbackTasks
        (tryJoinCallbacks options (tryJoin timeout options (before ++ .joinPush f :: rest)).1
          ev).2 = [] := by
  have hb := run_tryJoinCallbacks_not_firing options true before hbefore
  have hf := tryJoinCallbacks_true_firing options f
  have hr := run_tryJoinCallbacks_false options rest
  constructor
  · simp only [tryJoin, run_append, run, hb.1, hf.1]
    rw [callbackTasks_channelJoin_cons, callbackTasks_append, callbackTasks_append, hb.2, hf.2,
      hr.2]
    rfl
  · intro ev
    have hst : (tryJoin timeout options (before ++ .joinPush f :: rest)).1 = false := by
      simp only [tryJoin, run_append, run, hb.1, hf.1]
      exact hr.1
    rw [hst]
    exact (tryJoinCallbacks_false options ev).2

/-- Witness of C2: a channel error and an inbound message come first, then the
ok reply, then the timeout and an error reply. -/
theorem C2_tryJoin_first_firing_wins_witness :
    callbackTasks
        (tryJoin (V := Nat) 500
          { socket := newSocket
              { endPoint := "ws", transport := .Auto, heartbeatIntervalMs := none,
                reconnectAfterMs := [], logger := none, longpollerTimeout := none,
                params := none, onStateChange := none },
            topic := "room", params := none,
            on_ := [{ event := "new_msg", callback := fun _ => .Ignore }],
            onStateChange := some fun _ => .Ignore }
          ([.onError 7, .message "new_msg" 1] ++
            .joinPush (.ok 3) :: [.joinPush .timeout, .joinPush (.error 4)])).2 =
      [Task.succeed
        (newChannel
          { socket := newSocket
              { endPoint := "ws", transport := .Auto, heartbeatIntervalMs := none,
                reconnectAfterMs := [], logger := none, longpollerTimeout := none,
                params := none, onStateChange := none },
            topic := "room", params := none,
            on_ := [{ event := "new_msg", callback := fun _ => .Ignore }],
            onStateChange := some fun _ => .Ignore }, 3)] :=
  (C2_tryJoin_first_firing_wins (V := Nat) 500
    { socket := newSocket
        { endPoint := "ws", transport := .Auto, heartbeatIntervalMs := none,
          reconnectAfterMs := [], logger := none, longpollerTimeout := none,
          params := none, onStateChange := none },
      topic := "room", params := none,
      on_ := [{ event := "new_msg", callback := fun _ => .Ignore }],
      onStateChange := some fun _ => .Ignore }
    [.onError 7, .message "new_msg" 1] (.ok 3) [.joinPush .timeout, .joinPush (.error 4)]
    rfl).1

/-- C5: in `tryJoin`, when the timeout fires before any ok or error reply,
whatever channel events and inbound messages came before it, nothing was
handed to `callback` before, and that firing calls `channel.leave()` and then
`callback` with failure `Timeout`; a "ok" reply that arrives later, after any
other events, does not call `callback`, and the tasks handed to `callback`
over the whole sequence are still the one `Timeout`. -/
theorem C5_tryJoin_timeout_then_late_ok (timeout : Int) (options : ChannelOptions V)
    (before between : List (ChannelEvent V)) (msg : V)
    (hbefore : before.filterMap ChannelEvent.firing? = []) :
    callbackTasks (tryJoin timeout options before).2 = [] ∧
    (tryJoin timeout options (before ++ [.joinPush .timeout])).2 =
      (tryJoin timeout options before).2 ++ [.channelLeave, .callback (.fail .Timeout)] ∧
    callbackTasks
      (tryJoinCallbacks options
        (tryJoin timeout options (before ++ .joinPush .timeout :: between)).1
        (.joinPush (.ok msg))).2 = [] ∧
    callbackTasks
        (tryJoin timeout options
          (before ++ .joinPush .timeout :: (between ++ [.joinPush (.ok msg)]))).2 =
      [.fail .Timeout] := by
  have hb := run_tryJoinCallbacks_not_firing options true before hbefore
  have e : (tryJoinCallbacks options true (.joinPush .timeout)) =
      (false, [.channelLeave, .callback (.fail .Timeout)]) := rfl
  refine ⟨?_, ?_, ?_, ?_⟩
  · simp only [tryJoin]
    rw [callbackTasks_channelJoin_cons, hb.2]
  · simp only [tryJoin, run_append, run, hb.1, e, List.append_nil, List.cons_append]
  · have hst : (tryJoin timeout options (before ++ .joinPush .timeout :: between)).1 =
        false := by
      simp only [tryJoin, run_append, run, hb.1, e]
      exact (run_tryJoinCallbacks_false options between).1
    rw [hst]
    exact (tryJoinCallbacks_false options (.joinPush (.ok msg))).2
  · have h := (run_tryJoinCallbacks_false options (between ++ [.joinPush (.ok msg)])).2
    generalize between ++ [ChannelEvent.joinPush (Firing.ok msg)] = later at h ⊢
    simp only [tryJoin, run_append, run, hb.1, e]
    rw [callbackTasks_channelJoin_cons, callbackTasks_append, hb.2, List.cons_append,
      List.cons_append, callbackTasks_channelLeave_cons, callbackTasks_callback_cons,
      List.nil_append, List.nil_append, h]

/-- Witness of C5: a channel error and an inbound message come before the
timeout, a channel close between the timeout and the late ok reply. -/
theorem C5_tryJoin_timeout_then_late_ok_witness :
    callbackTasks
        (tryJoin (V := Nat) 500
          { socket := newSocket
              { endPoint := "ws", transport := .Auto, heartbeatIntervalMs := none,
                reconnectAfterMs := [], logger := none, longpollerTimeout := none,
                params := none, onStateChange := none },
            topic := "room", params := none,
            on_ := [{ event := "new_msg", callback := fun _ => .Ignore }],
            onStateChange := some fun _ => .Ignore }
          ([.onError 7, .message "new_msg" 1] ++
            .joinPush .timeout :: ([.onClose] ++ [.joinPush (.ok 3)]))).2 =
      [.fail .Timeout] :=
  (C5_tryJoin_timeout_then_late_ok (V := Nat) 500
    { socket := newSocket
        { endPoint := "ws", transport := .Auto, heartbeatIntervalMs := none,
          reconnectAfterMs := [], logger := none, longpollerTimeout := none,
          params := none, onStateChange := none },
      topic := "room", params := none,
      on_ := [{ event := "new_msg", callback := fun _ => .Ignore }],
      onStateChange := some fun _ => .Ignore }
    [.onError 7, .message "new_msg" 1] [.onClose] 3 rfl).2.2.2

/-- C10: in `tryJoin` without a state-change handler, over every sequence of
events, the calls are `channel.join()`, the calls of the hook handlers for the
inbound messages, and the calls of the first firing, which are `callback`
alone for an ok reply and `channel.leave()` then `callback` for an error reply
or the timeout.  So beyond what the hook handlers do, `channel.leave()` is
called once when the first firing is an error reply or the timeout, not at all
when it is an ok reply or when nothing fires, whatever channel events and
inbound messages come before the first firing and whatever follows it; over
firings alone it is called at most once, and exactly when the first firing is
an error reply or the timeout. -/
theorem C10_tryJoin_leave_at_most_once (timeout : Int) (options : ChannelOptions V)
    (before : List (ChannelEvent V)) (f : Firing V) (rest : List (ChannelEvent V))
    (fs : List (Firing V)) (hbefore : before.filterMap ChannelEvent.firing? = []) :
    (tryJoin timeout { options with onStateChange := none } (before ++ .joinPush f :: rest)).2 =
      Call.channelJoin ::
        (hookEvents { options with onStateChange := none } before ++
          ((match f with
            | .ok msg => [Call.callback (.succeed
                (newChannel { options with onStateChange := none }, msg))]
            | .error reason => [Call.channelLeave, Call.callback (.fail (.ErrorReply reason))]
            | .timeout => [Call.channelLeave, Call.callback (.fail .Timeout)]) ++
          hookEvents { options with onStateChange := none } rest)) ∧
    leaveCount
        (tryJoin timeout { options with onStateChange := none }
          (before ++ .joinPush f :: rest)).2 =
      leaveCount (hookEvents (R := Task (Error V) (Channel V × V))
          { options with onStateChange := none } (before ++ .joinPush f :: rest)) +
        (match f with
          | .ok _ => 0
          | .error _ => 1
          | .timeout => 1) ∧
    leaveCount (tryJoin timeout { options with onStateChange := none } before).2 =
      leaveCount (hookEvents (R := Task (Error V) (Channel V × V))
          { options with onStateChange := none } before) ∧
    leaveCount
        (tryJoin timeout { options with onStateChange := none } (fs.map .joinPush)).2 ≤ 1 ∧
    (leaveCount
        (tryJoin timeout { options with onStateChange := none } (fs.map .joinPush)).2 = 1 ↔
      ∃ tl, (∃ reason, fs = .error reason :: tl) ∨ fs = .timeout :: tl) ∧
    ∀ msg tl, fs = .ok msg :: tl →
      leaveCount
        (tryJoin timeout { options with onStateChange := none } (fs.map .joinPush)).2 = 0 := by
  have hb := run_tryJoinCallbacks_not_firing { options with onStateChange := none } true before
    hbefore
  have hbc := run_tryJoinCallbacks_not_firing_calls { options with onStateChange := none } rfl
    true before hbefore
  have hr := run_tryJoinCallbacks_false_calls { options with onStateChange := none } rfl rest
  have hf := tryJoinCallbacks_true_firing { options with onStateChange := none } f
  have htrace : (tryJoin timeout { options with onStateChange := none }
      (before ++ .joinPush f :: rest)).2 =
      Call.channelJoin ::
        (hookEvents { options with onStateChange := none } before ++
          ((match f with
            | .ok msg => [Call.callback (.succeed
                (newChannel { options with onStateChange := none }, msg))]
            | .error reason => [Call.channelLeave, Call.callback (.fail (.ErrorReply reason))]
            | .timeout => [Call.channelLeave, Call.callback (.fail .Timeout)]) ++
          hookEvents { options with onStateChange := none } rest)) := by
    simp only [tryJoin, run_append, run, hb.1, hbc, hf.1, hr]
    cases f <;> rfl
  have key : leaveCount (tryJoin timeout { options with onStateChange := none }
      (fs.map .joinPush)).2 = match fs with
        | [] => 0
        | .ok _ :: _ => 0
        | _ :: _ => 1 := by
    cases fs with
    | nil => simp [tryJoin, run, leaveCount]
    | cons g tl =>
      have hq := run_tryJoinCallbacks_false_quiet
        { options with onStateChange := none } rfl tl
      cases g <;>
        simp [tryJoin, run, tryJoinCallbacks, tryJoinOk, tryJoinError, tryJoinTimeout,
          tryJoinReportStateChange, hq, leaveCount]
  refine ⟨htrace, ?_, ?_, ?_, ?_, ?_⟩
  · rw [htrace, hookEvents_append, hookEvents_cons]
    have hnil : hookEvents (R := Task (Error V) (Channel V × V))
        { options with onStateChange := none } [.joinPush f] = [] := rfl
    rw [hnil, List.nil_append]
    have hjoin : ∀ cs : List (Call V (Task (Error V) (Channel V × V))),
        leaveCount (Call.channelJoin :: cs) = leaveCount cs := fun _ => rfl
    rw [hjoin, leaveCount_append, leaveCount_append, leaveCount_append]
    cases f <;> simp [leaveCount] <;> omega
  · simp only [tryJoin, hbc]
    rfl
  · rw [key]
    split <;> simp
  · rw [key]
    cases fs with
    | nil => simp
    | cons g tl => cases g <;> simp
  · intro msg tl h
    rw [key, h]

/-- Witness of C10: an inbound message for a hook and a channel close come
before the timeout, an ok reply after it. -/
theorem C10_tryJoin_leave_at_most_once_witness :
    leaveCount
        (tryJoin (V := Nat) 500
          { socket := newSocket
              { endPoint := "ws", transport := .Auto, heartbeatIntervalMs := none,
                reconnectAfterMs := [], logger := none, longpollerTimeout := none,
                params := none, onStateChange := none },
            topic := "room", params := none,
            on_ := [{ event := "new_msg", callback := fun _ => .Ignore }],
            onStateChange := none }
          ([.message "new_msg" 1, .onClose] ++ .joinPush .timeout :: [.joinPush (.ok 3)])).2 =
      leaveCount (hookEvents (R := Task (Error Nat) (Channel Nat × Nat))
          { socket := newSocket
              { endPoint := "ws", transport := .Auto, heartbeatIntervalMs := none,
                reconnectAfterMs := [], logger := none, longpollerTimeout := none,
                params := none, onStateChange := none },
            topic := "room", params := none,
            on_ := [{ event := "new_msg", callback := fun _ => .Ignore }],
            onStateChange := none }
          ([.message "new_msg" 1, .onClose] ++ .joinPush .timeout :: [.joinPush (.ok 3)])) +
        1 :=
  (C10_tryJoin_leave_at_most_once (V := Nat) 500
    { socket := newSocket
        { endPoint := "ws", transport := .Auto, heartbeatIntervalMs := none,
          reconnectAfterMs := [], logger := none, longpollerTimeout := none,
          params := none, onStateChange := none },
      topic := "room", params := none,
      on_ := [{ event := "new_msg", callback := fun _ => .Ignore }],
      onStateChange := none }
    [.message "new_msg" 1, .onClose] .timeout [.joinPush (.ok 3)] [.timeout, .ok 3] rfl).2.1

end TryJoin

section TryConnect

variable {V : Type}

/-- C3 as stated fails.  With a state-change handler that returns Disconnect
for an Error, a first Error event calls `socket.disconnect()` twice before
`callback` gets the failure: once from the callback of `newSocket`, once from
the callback of `tryConnect`. -/
theorem C3_tryConnect_disconnects_twice_counterexample :
    tryConnect (V := Nat)
        { endPoint := "ws", transport := .Auto, heartbeatIntervalMs := none,
          reconnectAfterMs := [], logger := none, longpollerTimeout := none,
          params := none,
          onStateChange := some fun
            | .Error _ => .Disconnect
            | _ => .Ignore }
        [.onError 5] =
      [.socketConnect, .socketStatusChangeCallback (.Error 5), .socketDisconnect,
        .socketDisconnect, .callback (.fail 5)] ∧
    disconnectCount
        (tryConnect (V := Nat)
          { endPoint := "ws", transport := .Auto, heartbeatIntervalMs := none,
            reconnectAfterMs := [], logger := none, longpollerTimeout := none,
            params := none,
            onStateChange := some fun
              | .Error _ => .Disconnect
              | _ => .Ignore }
          [.onError 5]) = 2 :=
  ⟨rfl, rfl⟩

/-- C3, amended: in `tryConnect`, over every sequence of transport events whose
first Open or Error event is preceded only by close events, all the calls on
the socket are: `socket.connect()`; for every event, the calls of the
state-change callbacks of `newSocket`; and, right after those for the first
Open or Error event, the calls of `tryConnect`, which are `callback` with
success and the socket for an Open, and `socket.disconnect()` once and then
`callback` with failure and that error for an Error.  So `callback` is called
exactly once, later events add nothing on the part of `tryConnect`, and the
calls of `socket.disconnect()` are one for a first Error and none for a first
Open, plus those of a state-change handler that returns Disconnect; without a
state-change handler there are no other calls at all. -/
theorem C3_tryConnect_first_event_wins (options : SocketOptions V) (closes : List V)
    (rest : List (SocketEvent V)) :
    tryConnect options (closes.map .onClose ++ .onOpen :: rest) =
      Call.socketConnect ::
        ((closes.map .onClose).flatMap (socketCallbacks (newSocket options)) ++
          (socketCallbacks (newSocket options) .onOpen ++
            Call.callback (.succeed (newSocket options)) ::
              rest.flatMap (socketCallbacks (newSocket options)))) ∧
    (∀ error : V,
      tryConnect options (closes.map .onClose ++ .onError error :: rest) =
        Call.socketConnect ::
          ((closes.map .onClose).flatMap (socketCallbacks (newSocket options)) ++
            (socketCallbacks (newSocket options) (.onError error) ++
              Call.socketDisconnect :: Call.callback (.fail error) ::
                rest.flatMap (socketCallbacks (newSocket options))))) ∧
    callbackTasks (tryConnect options (closes.map .onClose ++ .onOpen :: rest)) =
      [.succeed (newSocket options)] ∧
    (∀ error : V,
      callbackTasks (tryConnect options (closes.map .onClose ++ .onError error :: rest)) =
        [.fail error]) ∧
    disconnectCount (tryConnect options (closes.map .onClose ++ .onOpen :: rest)) =
      disconnectCount
        ((closes.map SocketEvent.onClose ++ SocketEvent.onOpen :: rest).flatMap
          (socketCallbacks (R := Task V (Socket V)) (newSocket options))) ∧
    (∀ error : V,
      disconnectCount (tryConnect options (closes.map .onClose ++ .onError error :: rest)) =
        disconnectCount
          ((closes.map SocketEvent.onClose ++ SocketEvent.onError error :: rest).flatMap
            (socketCallbacks (R := Task V (Socket V)) (newSocket options))) + 1) ∧
    tryConnect { options with onStateChange := none }
        (closes.map .onClose ++ .onOpen :: rest) =
      [.socketConnect, .callback (.succeed (newSocket { options with onStateChange := none }))] ∧
    (∀ error : V,
      tryConnect { options with onStateChange := none }
          (closes.map .onClose ++ .onError error :: rest) =
        [.socketConnect, .socketDisconnect, .callback (.fail error)]) := by
  have hopen : ∀ o : SocketOptions V,
      tryConnect o (closes.map .onClose ++ .onOpen :: rest) =
        Call.socketConnect ::
          ((closes.map .onClose).flatMap (socketCallbacks (newSocket o)) ++
            (socketCallbacks (newSocket o) .onOpen ++
              Call.callback (.succeed (newSocket o)) ::
                rest.flatMap (socketCallbacks (newSocket o)))) := by
    intro o
    have e : tryConnectCallbacks (newSocket o) true .onOpen =
        (false, [.callback (.succeed (newSocket o))]) := rfl
    simp only [tryConnect, run_append, run_tryConnectDeliver_closes, run, tryConnectDeliver, e,
      run_tryConnectDeliver_false_calls, List.append_assoc, List.singleton_append]
  have herr : ∀ (o : SocketOptions V) (error : V),
      tryConnect o (closes.map .onClose ++ .onError error :: rest) =
        Call.socketConnect ::
          ((closes.map .onClose).flatMap (socketCallbacks (newSocket o)) ++
            (socketCallbacks (newSocket o) (.onError error) ++
              Call.socketDisconnect :: Call.callback (.fail error) ::
                rest.flatMap (socketCallbacks (newSocket o)))) := by
    intro o error
    have e : tryConnectCallbacks (newSocket o) true (.onError error) =
        (false, [.socketDisconnect, .callback (.fail error)]) := rfl
    simp only [tryConnect, run_append, run_tryConnectDeliver_closes, run, tryConnectDeliver, e,
      run_tryConnectDeliver_false_calls, List.append_assoc, List.cons_append,
      List.nil_append]
  have hcount : ∀ cs : List (Call V (Task V (Socket V))),
      disconnectCount (Call.socketConnect :: cs) = disconnectCount cs := fun _ => rfl
  have hcb : ∀ (t : Task V (Socket V)) (cs : List (Call V (Task V (Socket V)))),
      disconnectCount (Call.callback t :: cs) = disconnectCount cs := fun _ _ => rfl
  have hdc : ∀ cs : List (Call V (Task V (Socket V))),
      disconnectCount (Call.socketDisconnect :: cs) = disconnectCount cs + 1 := by
    intro cs
    simp [disconnectCount]
  refine ⟨hopen options, herr options, ?_, ?_, ?_, ?_, ?_, ?_⟩
  · rw [hopen, callbackTasks_socketConnect_cons, callbackTasks_append, callbackTasks_append,
      callbackTasks_flatMap_socketCallbacks, callbackTasks_socketCallbacks,
      callbackTasks_callback_cons, callbackTasks_flatMap_socketCallbacks]
    rfl
  · intro error
    rw [herr, callbackTasks_socketConnect_cons, callbackTasks_append, callbackTasks_append,
      callbackTasks_flatMap_socketCallbacks, callbackTasks_socketCallbacks,
      callbackTasks_socketDisconnect_cons, callbackTasks_callback_cons,
      callbackTasks_flatMap_socketCallbacks]
    rfl
  · rw [hopen, hcount, List.flatMap_append, List.flatMap_cons]
    simp only [disconnectCount_append, hcb]
  · intro error
    rw [herr, hcount, List.flatMap_append, List.flatMap_cons]
    simp only [disconnectCount_append, hdc, hcb]
    omega
  · rw [hopen]
    simp only [flatMap_socketCallbacks_no_handler
      (newSocket { options with onStateChange := none }) rfl, List.nil_append]
    rfl
  · intro error
    rw [herr]
    simp only [flatMap_socketCallbacks_no_handler
      (newSocket { options with onStateChange := none }) rfl, List.nil_append]
    rfl

end TryConnect

section SocketDispatch

variable {V R : Type}

/-- C6: on a socket built by `newSocket` with a state-change handler, each
lifecycle event (Open, Closed with its event, Error with its error) invokes
the handler exactly once, on the corresponding tagged value, and then makes
the calls of the returned effect: `socket.disconnect()` alone for Disconnect,
`Signal.sendMessage` of the same message alone for SendMessage,
`Task.perform` of the same task alone for PerformTask, nothing for Ignore. -/
theorem C6_socket_state_change_dispatch (options : SocketOptions V)
    (h : SocketState V → Response V) (ev : SocketEvent V) :
    (socketCallbacks (R := R) (newSocket { options with onStateChange := some h }) ev).filterMap
        Call.socketState? = [ev.state] ∧
    socketCallbacks (R := R) (newSocket { options with onStateChange := some h }) ev =
      Call.socketStatusChangeCallback ev.state ::
        (match h ev.state with
          | .Disconnect => [Call.socketDisconnect]
          | .SendMessage m => [Call.signalSendMessage m]
          | .PerformTask t => [Call.taskPerform t]
          | .Ignore => []
          | .Reply _ _ => []
          | .Leave => []) := by
  cases ev with
  | onOpen => exact socketReportStateChange_calls h .Open
  | onClose event => exact socketReportStateChange_calls h (.Closed event)
  | onError error => exact socketReportStateChange_calls h (.Error error)

end SocketDispatch

section AfterDisconnect

variable {V : Type}

/-- C8 as stated fails.  After the `disconnect` task has run on a socket with
a state-change handler, a Closed event delivered to the registered callback
invokes the handler; likewise after the handler returned Disconnect for an
Open event. -/
theorem C8_dispatch_after_disconnect_counterexample :
    dispatchesAfterDisconnect
        (socketSession
          (newSocket (V := Nat)
            { endPoint := "ws", transport := .Auto, heartbeatIntervalMs := none,
              reconnectAfterMs := [], logger := none, longpollerTimeout := none,
              params := none, onStateChange := some fun _ => .Ignore })
          [.disconnect, .event (.onClose 1000)]) = true ∧
    dispatchesAfterDisconnect
        (socketSession
          (newSocket (V := Nat)
            { endPoint := "ws", transport := .Auto, heartbeatIntervalMs := none,
              reconnectAfterMs := [], logger := none, longpollerTimeout := none,
              params := none, onStateChange := some fun _ => .Disconnect })
          [.event .onOpen, .event (.onClose 1000)]) = true :=
  ⟨rfl, rfl⟩

/-- C8, amended: on a socket built by `newSocket` with a state-change handler,
every lifecycle event delivered to the registered callbacks invokes the
handler exactly once on the corresponding tagged value, whether or not a
disconnect (the `disconnect` task, or a Disconnect effect) was issued before:
the handler invocations over any sequence of inputs are, in order, the states
of the events delivered. -/
theorem C8_dispatch_ignores_disconnect (options : SocketOptions V)
    (h : SocketState V → Response V) (inputs : List (SocketInput V)) :
    (socketSession (newSocket { options with onStateChange := some h }) inputs).filterMap
        Call.socketState? =
      (inputs.filterMap SocketInput.event?).map SocketEvent.state := by
  induction inputs with
  | nil => rfl
  | cons input inputs ih =>
    simp only [socketSession] at ih
    simp only [socketSession, List.flatMap_cons, List.filterMap_append, ih]
    cases input with
    | disconnect => rfl
    | event ev =>
      have hev := socketCallbacks_states (R := Task V Tuple0) options h ev
      simp only [hev, List.filterMap_cons, SocketInput.event?, List.map_cons]
      rfl

end AfterDisconnect

section AfterLeave

variable {V : Type}

/-- C9 as stated fails.  The handler returns Leave for a channel Error and
Ignore otherwise; after the Error event, whose delivery calls
`channel.leave()` once, the Left event and an inbound message are still
dispatched to the handler and to the hook, for `join` and for `tryJoin`. -/
theorem C9_dispatch_after_leave_counterexample :
    leaveCount
        (joinEvents (V := Nat)
          { socket := newSocket
              { endPoint := "ws", transport := .Auto, heartbeatIntervalMs := none,
                reconnectAfterMs := [], logger := none, longpollerTimeout := none,
                params := none, onStateChange := none },
            topic := "room", params := none,
            on_ := [{ event := "new_msg", callback := fun _ => .Ignore }],
            onStateChange := some fun
              | .Error _ => .Leave
              | _ => .Ignore }
          [.onError 7]) = 1 ∧
    dispatchesAfterLeave
        (joinEvents (V := Nat)
          { socket := newSocket
              { endPoint := "ws", transport := .Auto, heartbeatIntervalMs := none,
                reconnectAfterMs := [], logger := none, longpollerTimeout := none,
                params := none, onStateChange := none },
            topic := "room", params := none,
            on_ := [{ event := "new_msg", callback := fun _ => .Ignore }],
            onStateChange := some fun
              | .Error _ => .Leave
              | _ => .Ignore }
          [.onError 7, .onClose]) = true ∧
    dispatchesAfterLeave
        (joinEvents (V := Nat)
          { socket := newSocket
              { endPoint := "ws", transport := .Auto, heartbeatIntervalMs := none,
                reconnectAfterMs := [], logger := none, longpollerTimeout := none,
                params := none, onStateChange := none },
            topic := "room", params := none,
            on_ := [{ event := "new_msg", callback := fun _ => .Ignore }],
            onStateChange := some fun
              | .Error _ => .Leave
              | _ => .Ignore }
          [.onError 7, .message "new_msg" 1]) = true ∧
    dispatchesAfterLeave
        (tryJoin (V := Nat) 500
          { socket := newSocket
              { endPoint := "ws", transport := .Auto, heartbeatIntervalMs := none,
                reconnectAfterMs := [], logger := none, longpollerTimeout := none,
                params := none, onStateChange := none },
            topic := "room", params := none,
            on_ := [{ event := "new_msg", callback := fun _ => .Ignore }],
            onStateChange := some fun
              | .Error _ => .Leave
              | _ => .Ignore }
          [.onError 7, .onClose]).2 = true := by
  refine ⟨?_, ?_, ?_, ?_⟩ <;> decide

/-- C9, amended: for a channel of `join` or `tryJoin` with a state-change
handler that returns Leave for a channel Error with `reason`, the delivery of
that event invokes the handler and calls `channel.leave()` exactly once.
Events delivered afterwards are still dispatched: over any later events the
handler is invoked, in order, on the state of each event that has one, and an
inbound message invokes the callback of every hook bound to its event. -/
theorem C9_leave_once_then_dispatch_continues (timeout : Int) (options : ChannelOptions V)
    (h : ChannelState V → Response V) (reason : V) (hLeave : h (.Error reason) = .Leave)
    (later : List (ChannelEvent V)) :
    joinEvents { options with onStateChange := some h } [.onError reason] =
      [.channelStatusChangeCallback (.Error reason), .channelLeave] ∧
    (∀ trying : Bool,
      (tryJoinCallbacks { options with onStateChange := some h } trying (.onError reason)).2 =
        [.channelStatusChangeCallback (.Error reason), .channelLeave]) ∧
    (joinEvents { options with onStateChange := some h } (.onError reason :: later)).filterMap
        Call.channelState? = ChannelState.Error reason :: later.filterMap ChannelEvent.state? ∧
    (tryJoin timeout { options with onStateChange := some h }
        (.onError reason :: later)).2.filterMap Call.channelState? =
      ChannelState.Error reason :: later.filterMap ChannelEvent.state? ∧
    (∀ (event : String) (msg : V),
      (joinCallbacks { options with onStateChange := some h } (.message event msg)).filterMap
          Call.hook? =
        (options.on_.filter fun hook => hook.event == event).map fun hook =>
          (hook.event, msg)) ∧
    (∀ (trying : Bool) (event : String) (msg : V),
      (tryJoinCallbacks { options with onStateChange := some h } trying
          (.message event msg)).2.filterMap Call.hook? =
        (options.on_.filter fun hook => hook.event == event).map fun hook =>
          (hook.event, msg)) := by
  have hrep : ∀ R : Type, channelReportStateChange (R := R) h (.Error reason) =
      [.channelStatusChangeCallback (.Error reason), .channelLeave] := by
    intro R
    simp only [channelReportStateChange, hLeave]
  refine ⟨?_, ?_, ?_, ?_, ?_, ?_⟩
  · simp only [joinEvents, List.flatMap_cons, List.flatMap_nil, List.append_nil, joinCallbacks,
      hrep]
  · intro trying
    simp only [tryJoinCallbacks, tryJoinReportStateChange, hrep]
  · rw [joinEvents_states]
    rfl
  · simp only [tryJoin]
    rw [List.filterMap_cons]
    simp only [Call.channelState?]
    rw [run_tryJoinCallbacks_states]
    rfl
  · intro event msg
    exact channelOn_hooks _ event msg
  · intro trying event msg
    exact channelOn_hooks _ event msg

/-- Witness of C9, amended: the handler that returns Leave for every Error. -/
theorem C9_leave_once_then_dispatch_continues_witness :
    joinEvents (V := Nat)
        { socket := newSocket
            { endPoint := "ws", transport := .Auto, heartbeatIntervalMs := none,
              reconnectAfterMs := [], logger := none, longpollerTimeout := none,
              params := none, onStateChange := none },
          topic := "room", params := none, on_ := [],
          onStateChange := some fun
            | .Error _ => .Leave
            | _ => .Ignore }
        [.onError 7] =
      [.channelStatusChangeCallback (.Error 7), .channelLeave] :=
  (C9_leave_once_then_dispatch_continues (V := Nat) 500
    { socket := newSocket
        { endPoint := "ws", transport := .Auto, heartbeatIntervalMs := none,
          reconnectAfterMs := [], logger := none, longpollerTimeout := none,
          params := none, onStateChange := none },
      topic := "room", params := none, on_ := [], onStateChange := none }
    (fun
      | .Error _ => .Leave
      | _ => .Ignore)
    7 rfl [.onClose]).1

end AfterLeave

section CodeDefects

variable {V R : Type}

/-- C7: the handler that `newChannel` binds for a hook invokes the hook
callback once and makes the calls of its response for Leave, SendMessage,
PerformTask and Ignore, but for Reply it makes no call: a hook on "ping" that
answers `Reply "pong" payload` pushes nothing on the channel, while
`reportStateChange` of `join` and `tryJoin` pushes for the same response. -/
theorem C7_hook_reply_is_dropped (options : ChannelOptions V) (hook : Hook V)
    (payload msg : V) (st : ChannelState V) :
    hookHandler (R := R) hook msg =
      Call.hookCallback hook.event msg ::
        (match hook.callback msg with
          | .Reply _ _ => []
          | .Leave => [Call.channelLeave]
          | .SendMessage m => [Call.signalSendMessage m]
          | .PerformTask t => [Call.taskPerform t]
          | .Ignore => []
          | .Disconnect => []) ∧
    channelOn (R := R)
        (newChannel
          { options with on_ := [{ event := "ping", callback := fun _ => .Reply "pong" payload }] })
        "ping" msg = [Call.hookCallback "ping" msg] ∧
    channelReportStateChange (R := R) (fun _ => .Reply "pong" payload) st =
      [Call.channelStatusChangeCallback st, Call.channelPush "pong" payload] := by
  refine ⟨?_, ?_, rfl⟩
  · simp only [hookHandler]
    generalize hook.callback msg = r
    cases r <;> rfl
  · have e : ("ping" == "ping") = true := by decide
    simp only [channelOn, newChannel, List.filter, e, List.flatMap_cons, List.flatMap_nil,
      List.append_nil, hookHandler]

/-- C4: `tryPush` pushes the message, and then no firing on the push (ok
reply, error reply, timeout), in any sequence, calls `callback`: its three
callbacks build a task and drop it.  With an ok reply to "ping" the only call
is the push, so the task never resolves; `push` does call `callback`. -/
theorem C4_tryPush_never_resolves (event : String) (payload msg : V) (timeout : Int)
    (channel : Channel V) (firings : List (Firing V)) :
    callbackTasks (tryPush event payload timeout channel firings) = [] ∧
    tryPush "ping" payload 500 channel [.ok msg] = [Call.channelPush "ping" payload] ∧
    callbackTasks (push event payload channel) = [Task.succeed ()] := by
  have hrun : (run (tryPushCallbacks (V := V)) () firings).2 = [] := by
    induction firings with
    | nil => rfl
    | cons f fs ih =>
      have hf : tryPushCallbacks (V := V) () f = ((), []) := by
        cases f <;> rfl
      simp only [run, hf, ih, List.append_nil]
  refine ⟨?_, rfl, rfl⟩
  simp only [tryPush, hrun]
  rfl

end CodeDefects

end Phoenix
